import Mathlib

/-!
# Verification of the mac-local-whisper voice server

Shallow embedding of `src/mac_local_whisper/server.py`: a local daemon that
listens on a Unix socket for `"toggle"` commands, alternating between starting
an audio capture stream and stopping it to transcribe the accumulated audio.

External capabilities (the sounddevice capture stream and the faster-whisper
transcriber) are modelled as an oracle record `Caps`; audio samples are
abstracted as integers since the server never inspects sample values, it only
accumulates, concatenates, and forwards them.
-/

namespace MacLocalWhisper

/-- One audio chunk: the buffer of samples delivered by one invocation of the
capture callback (`_audio_callback`, server.py line 43 appends `indata.copy()`).
Samples are abstract: the server only concatenates them. -/
abbrev AudioChunk := List Int

/-- Python's whitespace set for `str.strip()` with no argument
(space, tab, newline, carriage return, vertical tab, form feed). -/
def isPySpace (c : Char) : Bool :=
  c == ' ' || c == '\t' || c == '\n' || c == '\r' || c == '\x0b' || c == '\x0c'

/-- Python's `str.strip()`: remove leading and trailing whitespace. -/
def pyStrip (s : String) : String :=
  ⟨((s.data.dropWhile isPySpace).reverse.dropWhile isPySpace).reverse⟩

/-- A transcription segment as returned by `WhisperModel.transcribe`
(server.py line 71): only its `text` field is used by the server. -/
structure Segment where
  text : String
deriving DecidableEq, Repr

/-- Handle to a sounddevice `InputStream`: `running` is set by `.start()` and
cleared by `.stop()`; `closed` is set by `.close()`. -/
structure StreamH where
  running : Bool
  closed : Bool
deriving DecidableEq, Repr

/-- The server's JSON responses (server.py lines 56, 68, 75, 118, 123):
`{"status": "recording"}`, `{"status": "done", "text": t}`, `{"error": m}`. -/
inductive Response where
  | recording : Response
  | done (text : String) : Response
  | error (msg : String) : Response
deriving DecidableEq, Repr

/-- The mutable session state of `VoiceServer` (server.py lines 26-31), i.e.
the fields touched by the toggle state machine.  The whisper model handle and
the listening socket are part of the lifecycle model below. -/
structure ServerState where
  recording : Bool
  audio_chunks : List AudioChunk
  stream : Option StreamH
deriving DecidableEq, Repr

/-- `VoiceServer.__init__` (server.py lines 26-31): recording off, no
accumulated chunks, no stream handle. -/
def initState : ServerState :=
  { recording := false, audio_chunks := [], stream := none }

/-- Oracle for the external capability boundary.  The Boolean fields say
whether the corresponding sounddevice call returns normally (`true`) or raises
(`false`); `transcribe` is the whisper model: given the concatenated flat
sample buffer it returns the segment list, or raises. -/
structure Caps where
  mkStreamOk : Bool
  streamStartOk : Bool
  stopOk : Bool
  closeOk : Bool
  transcribe : List Int → Except String (List Segment)

/-- All capability calls succeed. -/
def Caps.Ok (c : Caps) : Prop :=
  c.mkStreamOk = true ∧ c.streamStartOk = true ∧ c.stopOk = true ∧
    c.closeOk = true ∧ ∀ a, ∃ segs, c.transcribe a = Except.ok segs

/-- `VoiceServer._audio_callback` (server.py lines 38-43): appends the
delivered chunk to `audio_chunks` (the status flag is only logged). -/
def audio_callback (ch : AudioChunk) (s : ServerState) : ServerState :=
  { s with audio_chunks := s.audio_chunks ++ [ch] }

/-- `VoiceServer.start_recording` (server.py lines 45-56).  Clears
`audio_chunks`, constructs an `InputStream` (may raise), starts it (may
raise), sets `recording = True`, returns `{"status": "recording"}`.  A raised
exception is the `Except.error` component; the first component is the state of
`self` at the moment the exception propagates. -/
def start_recording (caps : Caps) (s : ServerState) :
    ServerState × Except String Response :=
  if caps.mkStreamOk then
    if caps.streamStartOk then
      ({ recording := true, audio_chunks := [],
         stream := some { running := true, closed := false } },
       Except.ok Response.recording)
    else
      ({ recording := s.recording, audio_chunks := [],
         stream := some { running := false, closed := false } },
       Except.error "stream start failed")
  else
    ({ recording := s.recording, audio_chunks := [], stream := s.stream },
     Except.error "InputStream failed")

/-- Body of `VoiceServer.stop_and_transcribe` after the stream has been dealt
with (server.py lines 63-75): set `recording = False` (folded into each
branch result here; it does not affect `audio_chunks`); if no chunks were
captured return `{"status": "done", "text": ""}` without calling the
transcriber; otherwise concatenate and flatten the chunks, call the
transcriber, strip each segment text, join with single spaces, strip the
joined result. -/
def transcribe_phase (caps : Caps) (s : ServerState) :
    ServerState × Except String Response :=
  if s.audio_chunks.isEmpty then
    ({ s with recording := false }, Except.ok (Response.done ""))
  else
    match caps.transcribe s.audio_chunks.flatten with
    | Except.error e => ({ s with recording := false }, Except.error e)
    | Except.ok segs =>
        ({ s with recording := false },
          Except.ok (Response.done
            (pyStrip (String.intercalate " " (segs.map (fun g => pyStrip g.text))))))

/-- `VoiceServer.stop_and_transcribe` (server.py lines 58-75).  If a stream
handle is held: `.stop()` (may raise), `.close()` (may raise), then drop the
handle; either way proceed to `transcribe_phase`.  When `.stop()` raises the
state is returned as-is (still recording, handle still held), mirroring the
Python exception propagating before `self.recording = False` runs. -/
def stop_and_transcribe (caps : Caps) (s : ServerState) :
    ServerState × Except String Response :=
  match s.stream with
  | some h =>
      if caps.stopOk then
        let h := { h with running := false }
        if caps.closeOk then
          transcribe_phase caps { s with stream := none }
        else
          ({ s with stream := some h }, Except.error "stream close failed")
      else
        (s, Except.error "stream stop failed")
  | none => transcribe_phase caps s

/-- `VoiceServer.handle_toggle` (server.py lines 77-81): start when idle,
stop-and-transcribe when recording. -/
def handle_toggle (caps : Caps) (s : ServerState) :
    ServerState × Except String Response :=
  if !s.recording then start_recording caps s
  else stop_and_transcribe caps s

/-! ## The accept loop -/

/-- One client connection as seen by the handler (server.py line 114):
`data` is the result of `conn.recv(1024).decode("utf-8")` — `some str` when
the received bytes decode as UTF-8, `none` when decoding raises
`UnicodeDecodeError`; `writable` says whether `conn.sendall` succeeds. -/
structure Conn where
  data : Option String
  writable : Bool
deriving DecidableEq, Repr

/-- Message used for the modelled `UnicodeDecodeError` (`str(e)` at
server.py line 123). -/
def decodeErrMsg : String := "invalid utf-8"

/-- Outcome of handling one connection: the session state afterwards, the
response actually delivered to the client (`none` when the connection was not
writable, so every `sendall` raised and the nested send of the error object
failed too), and whether the connection was closed (the `finally` at
server.py line 127 always closes it). -/
structure StepResult where
  state : ServerState
  sent : Option Response
  closed : Bool
deriving DecidableEq, Repr

/-- The body of one iteration of the accept loop (server.py lines 111-127):
decode and trim the received bytes; dispatch `"toggle"` to `handle_toggle`,
anything else to `{"error": "unknown command: <text>"}`; any exception
(decode failure or a capability failure propagating out of `handle_toggle`)
is caught at the per-connection boundary and converted to `{"error": <msg>}`,
sent only if the connection is writable; the connection is always closed. -/
def serve_step (caps : Caps) (s : ServerState) (c : Conn) : StepResult :=
  match c.data with
  | none =>
      { state := s
        sent := if c.writable then some (Response.error decodeErrMsg) else none
        closed := true }
  | some str =>
      if pyStrip str = "toggle" then
        match handle_toggle caps s with
        | (s1, Except.ok r) =>
            { state := s1
              sent := if c.writable then some r else none
              closed := true }
        | (s1, Except.error e) =>
            { state := s1
              sent := if c.writable then some (Response.error e) else none
              closed := true }
      else
        { state := s
          sent := if c.writable then some (Response.error ("unknown command: " ++ pyStrip str)) else none
          closed := true }

/-- The accept loop (server.py `while True:` at line 111) run over a finite
prefix of the connection sequence: handles each connection to completion in
order, threading the session state, and returns the per-connection outcomes.
The loop itself never terminates on a per-connection failure. -/
def serve_run (caps : Caps) (s : ServerState) : List Conn → ServerState × List StepResult
  | [] => (s, [])
  | c :: cs =>
      let r := serve_step caps s c
      let rest := serve_run caps r.state cs
      (rest.1, r :: rest.2)

/-! ## Process lifecycle -/

/-- Process-wide resources owned by the server (server.py lines 94-107):
the session, whether the listening socket is open, and whether the rendezvous
artifact `/tmp/mac-local-whisper.sock` exists on the filesystem. -/
structure SysState where
  server : ServerState
  sockOpen : Bool
  artifactExists : Bool
deriving DecidableEq, Repr

/-- `VoiceServer.cleanup` (server.py lines 83-92): stop and close the stream
if one is held (the attribute keeps pointing at the closed handle), close the
listening socket if open, unlink the socket path ignoring
`FileNotFoundError`.  `stream.stop()` and `stream.close()` are the same
fallible capability calls as in `stop_and_transcribe`: when one of them
raises, the rest of the body never runs — the socket is not closed and the
artifact is not unlinked — and the exception is the `Except.error`
component. -/
def cleanup (caps : Caps) (sys : SysState) : SysState × Except String Unit :=
  match sys.server.stream with
  | some h =>
      if caps.stopOk then
        if caps.closeOk then
          ({ server := { sys.server with stream := some { running := false, closed := true } },
             sockOpen := false, artifactExists := false }, Except.ok ())
        else
          ({ sys with
             server := { sys.server with stream := some { h with running := false } } },
            Except.error "stream close failed")
      else
        (sys, Except.error "stream stop failed")
  | none =>
      ({ server := sys.server, sockOpen := false, artifactExists := false }, Except.ok ())

/-- Handler registrations performed by `serve` before entering the accept
loop (server.py lines 105-107): `cleanup` registered with `atexit`, and
SIGINT/SIGTERM handlers installed that call `sys.exit(0)`. -/
structure RuntimeReg where
  atexitCleanup : Bool
  sigintHandled : Bool
  sigtermHandled : Bool

/-- The registrations as they stand once `serve` has reached the accept loop
(server.py lines 105-107 have all run). -/
def serveReg : RuntimeReg :=
  { atexitCleanup := true, sigintHandled := true, sigtermHandled := true }

/-- The ways the server process can exit while serving. -/
inductive ExitPath where
  | sigint : ExitPath
  | sigterm : ExitPath
  | uncaughtError : ExitPath
  | normalReturn : ExitPath
deriving DecidableEq, Repr

/-- Modelled from CPython runtime semantics (not repository code): on
interpreter exit — whether via `sys.exit`, an uncaught exception reaching the
top level, or a normal return from `main` — every handler registered with
`atexit` runs; a handler that raises has its traceback printed and aborts
only its own body, so the post-exit state is the first component of
`cleanup`. -/
def interpreter_exit (caps : Caps) (reg : RuntimeReg) (sys : SysState) : SysState :=
  if reg.atexitCleanup then (cleanup caps sys).1 else sys

/-- Modelled from CPython runtime semantics (not repository code) composed
with the registrations in `serve`: a SIGINT/SIGTERM with a handler installed
runs that handler, here `lambda *_: sys.exit(0)` (server.py lines 106-107),
which raises `SystemExit`; `SystemExit` is not an `Exception`, so the
per-connection `except Exception` block does not swallow it and the
interpreter exits, running `atexit` handlers.  An uncaught error or a normal
return likewise reaches interpreter exit.  A signal with no handler installed
kills the process with no cleanup. -/
def process_exit (caps : Caps) (reg : RuntimeReg) (p : ExitPath) (sys : SysState) : SysState :=
  match p with
  | ExitPath.sigint => if reg.sigintHandled then interpreter_exit caps reg sys else sys
  | ExitPath.sigterm => if reg.sigtermHandled then interpreter_exit caps reg sys else sys
  | ExitPath.uncaughtError => interpreter_exit caps reg sys
  | ExitPath.normalReturn => interpreter_exit caps reg sys

/-- The capture stream is stopped and released: either no handle is held, or
the held handle has been stopped and closed. -/
def streamReleased (s : ServerState) : Prop :=
  match s.stream with
  | none => True
  | some h => h.running = false ∧ h.closed = true

/-! ## Derived notions and concrete inputs used in the statements -/

/-- A sequence of N toggle commands: each list entry holds the chunks the
capture callback delivers after that toggle is processed (arbitrary, since
delivery is driven by the external capture subsystem). -/
def toggleTrace (caps : Caps) : List (List AudioChunk) → ServerState → ServerState
  | [], s => s
  | d :: ds, s =>
      toggleTrace caps ds (d.foldl (fun t ch => audio_callback ch t) (handle_toggle caps s).1)

/-- The session-consistency invariant: the recording flag is set exactly when
a stream handle is held. -/
def sessionInv (s : ServerState) : Prop :=
  s.recording = s.stream.isSome

/-- A capability oracle on which every call succeeds and the transcriber
returns no segments. -/
def okCaps : Caps :=
  { mkStreamOk := true, streamStartOk := true, stopOk := true, closeOk := true,
    transcribe := fun _ => Except.ok [] }

/-- A session that is recording with a live stream handle and no accumulated
chunks. -/
def recEmptyState : ServerState :=
  { recording := true, audio_chunks := [], stream := some { running := true, closed := false } }

/-- A capability oracle on which `stream.stop()` raises. -/
def stopFailCaps : Caps :=
  { mkStreamOk := true, streamStartOk := true, stopOk := false, closeOk := true,
    transcribe := fun _ => Except.ok [] }

/-- A capability oracle whose transcriber returns the two segments
`"a "` (with a trailing space) and `"b"`. -/
def segCaps : Caps :=
  { mkStreamOk := true, streamStartOk := true, stopOk := true, closeOk := true,
    transcribe := fun _ => Except.ok [Segment.mk "a ", Segment.mk "b"] }

/-- A session that is recording with a live stream handle and one accumulated
chunk. -/
def recOneChunkState : ServerState :=
  { recording := true, audio_chunks := [[0]], stream := some { running := true, closed := false } }

/-- A serving process with an active recording, an open listening socket, and
the rendezvous artifact on the filesystem. -/
def heldStreamSys : SysState :=
  { server := recEmptyState, sockOpen := true, artifactExists := true }

/-! ## Helper lemmas -/

/-- The transcription phase always ends with the recording flag cleared. -/
lemma transcribe_phase_recording (caps : Caps) (s : ServerState) :
    (transcribe_phase caps s).1.recording = false := by
  unfold transcribe_phase
  split
  · rfl
  · split <;> rfl

/-- The transcription phase never touches the stream handle. -/
lemma transcribe_phase_stream (caps : Caps) (s : ServerState) :
    (transcribe_phase caps s).1.stream = s.stream := by
  unfold transcribe_phase
  split
  · rfl
  · split <;> rfl

/-- When the sounddevice calls all succeed, one toggle negates the recording
flag, whatever the rest of the state is. -/
lemma handle_toggle_flip (caps : Caps) (s : ServerState)
    (hmk : caps.mkStreamOk = true) (hst : caps.streamStartOk = true)
    (hstop : caps.stopOk = true) (hcl : caps.closeOk = true) :
    (handle_toggle caps s).1.recording = !s.recording := by
  cases hr : s.recording with
  | false => simp [handle_toggle, start_recording, hr, hmk, hst]
  | true =>
      cases hstream : s.stream with
      | none =>
          simp [handle_toggle, stop_and_transcribe, hr, hstream, transcribe_phase_recording]
      | some h =>
          simp [handle_toggle, stop_and_transcribe, hr, hstream, hstop, hcl,
            transcribe_phase_recording]

/-- Chunk deliveries from the capture callback never touch the recording
flag. -/
lemma foldl_callback_recording (l : List AudioChunk) (t : ServerState) :
    (l.foldl (fun t ch => audio_callback ch t) t).recording = t.recording := by
  induction l generalizing t with
  | nil => rfl
  | cons ch l ih =>
      rw [List.foldl_cons, ih]
      rfl

/-- Parity of the recording flag along a toggle trace: N failure-free toggles
negate the flag N times, regardless of what the capture callback delivers in
between. -/
lemma toggleTrace_recording (caps : Caps)
    (hmk : caps.mkStreamOk = true) (hst : caps.streamStartOk = true)
    (hstop : caps.stopOk = true) (hcl : caps.closeOk = true) :
    ∀ (ds : List (List AudioChunk)) (s : ServerState),
      (toggleTrace caps ds s).recording = ((ds.length % 2 == 1) ^^ s.recording) := by
  intro ds
  induction ds with
  | nil => intro s; simp [toggleTrace]
  | cons d ds ih =>
      intro s
      rw [toggleTrace, ih, foldl_callback_recording, handle_toggle_flip caps s hmk hst hstop hcl]
      rcases Nat.mod_two_eq_zero_or_one ds.length with h | h <;>
        cases s.recording <;> simp [List.length_cons, Nat.add_mod, h]

/-- The all-succeeding oracle indeed satisfies `Caps.Ok`. -/
lemma okCaps_ok : okCaps.Ok :=
  ⟨rfl, rfl, rfl, rfl, fun _ => ⟨[], rfl⟩⟩

/-! ## Claim theorems -/

/-- C1: starting from the idle initial state, for every sequence of N
consecutive toggle commands with no capability failures (and arbitrary chunk
deliveries from the capture callback in between), the session is recording
after the sequence exactly when N is odd. -/
theorem C1_toggle_parity (caps : Caps) (ds : List (List AudioChunk)) (hok : caps.Ok) :
    (toggleTrace caps ds initState).recording = true ↔ ds.length % 2 = 1 := by
  obtain ⟨hmk, hst, hstop, hcl, -⟩ := hok
  rw [toggleTrace_recording caps hmk hst hstop hcl ds initState]
  simp [initState]

/-- Witness for C1: one toggle on the all-succeeding oracle leaves the
session recording. -/
theorem C1_witness :
    okCaps.Ok ∧ ((toggleTrace okCaps [[]] initState).recording = true ↔ (1 : Nat) % 2 = 1) :=
  ⟨okCaps_ok, C1_toggle_parity okCaps [[]] okCaps_ok⟩

/-- C2: evaluation of the code at the failing input.  When a toggle arrives
while the session is recording with a held stream and `stream.stop()` raises,
the exception propagates out of `stop_and_transcribe` before
`self.recording = False` and `self.stream = None` run: the reported state
still has the recording flag set and the stream handle held, contradicting
the claim that the session is transitioned back to Idle and the handle
released before the error is reported. -/
theorem C2_stop_failure_keeps_state :
    (handle_toggle stopFailCaps recEmptyState).2 = Except.error "stream stop failed" ∧
    (handle_toggle stopFailCaps recEmptyState).1.recording = true ∧
    (handle_toggle stopFailCaps recEmptyState).1.stream =
      some { running := true, closed := false } :=
  ⟨rfl, rfl, rfl⟩

/-- C3: a toggle taken while recording with an empty chunk sequence can only
return `{"status": "done", "text": ""}`, and its entire outcome is
independent of the transcriber capability (the transcriber is not
invoked). -/
theorem C3_empty_chunks_no_transcribe (caps : Caps) (s : ServerState)
    (hrec : s.recording = true) (hempty : s.audio_chunks = []) :
    (∀ r, (handle_toggle caps s).2 = Except.ok r → r = Response.done "") ∧
    ∀ t, handle_toggle { caps with transcribe := t } s = handle_toggle caps s := by
  constructor
  · intro r hr
    rw [show handle_toggle caps s = stop_and_transcribe caps s by simp [handle_toggle, hrec]]
      at hr
    unfold stop_and_transcribe at hr
    cases hstream : s.stream with
    | none =>
        rw [hstream] at hr
        simp [transcribe_phase, hempty] at hr
        exact hr.symm
    | some h =>
        rw [hstream] at hr
        simp only [] at hr
        split at hr
        · split at hr
          · simp [transcribe_phase, hempty] at hr
            exact hr.symm
          · simp at hr
        · simp at hr
  · intro t
    cases hstream : s.stream <;>
      simp [handle_toggle, hrec, stop_and_transcribe, hstream, transcribe_phase, hempty]

/-- Witness for C3: on a recording session with no chunks, replacing the
transcriber by one that always raises does not change the toggle's
outcome. -/
theorem C3_witness :
    recEmptyState.recording = true ∧ recEmptyState.audio_chunks = [] ∧
    handle_toggle { okCaps with transcribe := fun _ => Except.error "boom" } recEmptyState =
      handle_toggle okCaps recEmptyState :=
  ⟨rfl, rfl, (C3_empty_chunks_no_transcribe okCaps recEmptyState rfl rfl).2
    (fun _ => Except.error "boom")⟩

/-- C4 counterexample: with segments `"a "` and `"b"` the server returns
`"a b"` (each segment text is stripped before joining), while the claim's
formula — join the per-segment texts as returned and trim only the joined
result — gives `"a  b"` (two spaces).  The two differ, so the claim as
stated is false on the code. -/
theorem C4_counterexample :
    (handle_toggle segCaps recOneChunkState).2 = Except.ok (Response.done "a b") ∧
    pyStrip (String.intercalate " " ([Segment.mk "a ", Segment.mk "b"].map Segment.text)) =
      "a  b" ∧
    ("a b" : String) ≠ "a  b" :=
  ⟨rfl, by decide, by decide⟩

/-- C4 as amended: for every toggle taken while recording with a non-empty
chunk sequence, when stopping succeeds and the transcriber returns the
segment list, the response is `{"status": "done", "text": t}` where `t` is
the per-segment texts each trimmed of surrounding whitespace, joined with
single spaces, with the joined result trimmed as well. -/
theorem C4_amended_join (caps : Caps) (s : ServerState) (segs : List Segment)
    (hrec : s.recording = true) (hne : s.audio_chunks ≠ [])
    (hstop : caps.stopOk = true) (hcl : caps.closeOk = true)
    (ht : caps.transcribe s.audio_chunks.flatten = Except.ok segs) :
    (handle_toggle caps s).2 =
      Except.ok (Response.done
        (pyStrip (String.intercalate " " (segs.map (fun g => pyStrip g.text))))) := by
  have hne' : s.audio_chunks.isEmpty = false := by
    simp [List.isEmpty_iff, hne]
  cases hstream : s.stream with
  | none => simp [handle_toggle, hrec, stop_and_transcribe, hstream, transcribe_phase, hne', ht]
  | some h =>
      simp [handle_toggle, hrec, stop_and_transcribe, hstream, hstop, hcl, transcribe_phase,
        hne', ht]

/-- Witness for the amended C4, at the concrete segments `"a "` and `"b"`. -/
theorem C4_witness :
    recOneChunkState.recording = true ∧ recOneChunkState.audio_chunks ≠ [] ∧
    (handle_toggle segCaps recOneChunkState).2 =
      Except.ok (Response.done
        (pyStrip (String.intercalate " "
          ([Segment.mk "a ", Segment.mk "b"].map (fun g => pyStrip g.text))))) :=
  ⟨rfl, by decide, C4_amended_join segCaps recOneChunkState _ rfl (by decide) rfl rfl rfl⟩

/-- C5: whenever a toggle is taken from an idle session and completes the
transition into recording, the chunk sequence is empty at that moment —
`start_recording` clears any previously accumulated chunks first. -/
theorem C5_start_clears (caps : Caps) (s : ServerState) (hidle : s.recording = false)
    (_hrec : (handle_toggle caps s).1.recording = true) :
    (handle_toggle caps s).1.audio_chunks = [] := by
  rw [show handle_toggle caps s = start_recording caps s by simp [handle_toggle, hidle]]
  unfold start_recording
  split
  · split <;> rfl
  · rfl

/-- Witness for C5: the first toggle from the initial state. -/
theorem C5_witness :
    initState.recording = false ∧ (handle_toggle okCaps initState).1.recording = true ∧
    (handle_toggle okCaps initState).1.audio_chunks = [] :=
  ⟨rfl, rfl, C5_start_clears okCaps initState rfl rfl⟩

/-- C6: a writable connection whose decoded, trimmed text is not `"toggle"`
leaves the session state unchanged, is answered with
`{"error": "unknown command: <text>"}`, is closed, and the accept loop
continues with the remaining connections exactly as if this one had not
happened. -/
theorem C6_unknown_command (caps : Caps) (s : ServerState) (str : String) (rest : List Conn)
    (h : pyStrip str ≠ "toggle") :
    (serve_step caps s { data := some str, writable := true }).state = s ∧
    (serve_step caps s { data := some str, writable := true }).sent =
      some (Response.error ("unknown command: " ++ pyStrip str)) ∧
    (serve_step caps s { data := some str, writable := true }).closed = true ∧
    serve_run caps s ({ data := some str, writable := true } :: rest) =
      ((serve_run caps s rest).1,
        serve_step caps s { data := some str, writable := true } :: (serve_run caps s rest).2) := by
  have hs : serve_step caps s { data := some str, writable := true } =
      { state := s, sent := some (Response.error ("unknown command: " ++ pyStrip str)),
        closed := true } := by
    simp [serve_step, h]
  refine ⟨by rw [hs], by rw [hs], by rw [hs], ?_⟩
  simp [serve_run, hs]

/-- Witness for C6: the command `"ping"`. -/
theorem C6_witness :
    pyStrip "ping" ≠ "toggle" ∧
    (serve_step okCaps initState { data := some "ping", writable := true }).state = initState ∧
    (serve_step okCaps initState { data := some "ping", writable := true }).sent =
      some (Response.error ("unknown command: " ++ pyStrip "ping")) :=
  ⟨by decide, (C6_unknown_command okCaps initState "ping" [] (by decide)).1,
    (C6_unknown_command okCaps initState "ping" [] (by decide)).2.1⟩

/-- C7: per-connection fault isolation of the accept loop — every connection
in the sequence is handled and answered (one outcome per connection, so no
single bad command terminates the loop); every connection is closed; after
any connection the loop continues on the remaining ones from the resulting
state; a connection with undecodable bytes leaves the state unchanged and is
answered with an `error` object exactly when it is still writable; and a
capability failure raised out of `handle_toggle` is likewise converted to
`{"error": <message>}` and sent exactly when the connection is still
writable, with the connection closed. -/
theorem C7_per_connection_isolation :
    (∀ (caps : Caps) (s : ServerState) (conns : List Conn),
      ((serve_run caps s conns).2).length = conns.length) ∧
    (∀ (caps : Caps) (s : ServerState) (c : Conn), (serve_step caps s c).closed = true) ∧
    (∀ (caps : Caps) (s : ServerState) (c : Conn) (rest : List Conn),
      serve_run caps s (c :: rest) =
        ((serve_run caps (serve_step caps s c).state rest).1,
          serve_step caps s c :: (serve_run caps (serve_step caps s c).state rest).2)) ∧
    (∀ (caps : Caps) (s : ServerState) (w : Bool),
      (serve_step caps s { data := none, writable := w }).state = s ∧
      (serve_step caps s { data := none, writable := w }).sent =
        (if w then some (Response.error decodeErrMsg) else none)) ∧
    (∀ (caps : Caps) (s s1 : ServerState) (str e : String) (w : Bool),
      pyStrip str = "toggle" → handle_toggle caps s = (s1, Except.error e) →
      serve_step caps s { data := some str, writable := w } =
        { state := s1, sent := if w then some (Response.error e) else none,
          closed := true }) := by
  refine ⟨?_, ?_, ?_, ?_, ?_⟩
  · intro caps s conns
    induction conns generalizing s with
    | nil => rfl
    | cons c cs ih => simp [serve_run, ih]
  · intro caps s c
    rcases c with ⟨data, w⟩
    cases data with
    | none => rfl
    | some str =>
        simp only [serve_step]
        split
        · rcases hht : handle_toggle caps s with ⟨s1, r⟩
          cases r <;> rfl
        · rfl
  · intro caps s c rest
    rfl
  · intro caps s w
    exact ⟨rfl, rfl⟩
  · intro caps s s1 str e w htog hht
    simp [serve_step, htog, hht]

/-- Witness for C7's hypothesis-bearing conjunct: a toggle whose
`stream.stop()` raises is converted to an error response on a writable
connection. -/
theorem C7_witness :
    pyStrip "toggle" = "toggle" ∧
    handle_toggle stopFailCaps recEmptyState = (recEmptyState, Except.error "stream stop failed") ∧
    serve_step stopFailCaps recEmptyState { data := some "toggle", writable := true } =
      { state := recEmptyState, sent := some (Response.error "stream stop failed"),
        closed := true } :=
  ⟨rfl, rfl, by
    have h := C7_per_connection_isolation.2.2.2.2 stopFailCaps recEmptyState recEmptyState
      "toggle" "stream stop failed" true rfl rfl
    simpa using h⟩

/-- C8 counterexample: a SIGTERM while a recording is active, when
`stream.stop()` raises inside the `atexit`-registered `cleanup`: the
exception aborts the rest of the cleanup body, so after the exit the
rendezvous artifact still exists, the listening socket was never closed, and
the stream handle was neither stopped nor closed — the claim as stated fails
on this exit path. -/
theorem C8_counterexample :
    (process_exit stopFailCaps serveReg ExitPath.sigterm heldStreamSys).artifactExists = true ∧
    (process_exit stopFailCaps serveReg ExitPath.sigterm heldStreamSys).sockOpen = true ∧
    (process_exit stopFailCaps serveReg ExitPath.sigterm heldStreamSys).server.stream =
      some { running := true, closed := false } :=
  ⟨rfl, rfl, rfl⟩

/-- C8 as amended: on every modelled exit path of the serving process —
SIGINT, SIGTERM (whose installed handlers call `sys.exit(0)`), an uncaught
error, or a normal return — the `atexit`-registered `cleanup` runs; provided
stopping and closing any active capture stream does not raise, afterwards any
held capture stream is stopped and closed, the listening socket is closed,
and the rendezvous artifact is removed from the filesystem. -/
theorem C8_shutdown_cleanup (caps : Caps) (p : ExitPath) (sys : SysState)
    (hstop : caps.stopOk = true) (hcl : caps.closeOk = true) :
    streamReleased (process_exit caps serveReg p sys).server ∧
    (process_exit caps serveReg p sys).sockOpen = false ∧
    (process_exit caps serveReg p sys).artifactExists = false := by
  have hpe : process_exit caps serveReg p sys = (cleanup caps sys).1 := by
    cases p <;> rfl
  rw [hpe]
  unfold cleanup
  cases hst : sys.server.stream with
  | none =>
      refine ⟨?_, rfl, rfl⟩
      simp [streamReleased, hst]
  | some h0 =>
      simp [hstop, hcl, streamReleased]

/-- Witness for the amended C8: a SIGTERM during an active recording with
succeeding capability calls removes the artifact, closes the socket and
releases the stream. -/
theorem C8_witness :
    okCaps.stopOk = true ∧ okCaps.closeOk = true ∧
    ((process_exit okCaps serveReg ExitPath.sigterm heldStreamSys).artifactExists = false ∧
      (process_exit okCaps serveReg ExitPath.sigterm heldStreamSys).sockOpen = false ∧
      streamReleased (process_exit okCaps serveReg ExitPath.sigterm heldStreamSys).server) :=
  ⟨rfl, rfl, by
    obtain ⟨h1, h2, h3⟩ := C8_shutdown_cleanup okCaps ExitPath.sigterm heldStreamSys rfl rfl
    exact ⟨h3, h2, h1⟩⟩

/-- C9: the recording flag is set exactly when a stream handle is held: this
holds at construction, and it is preserved by every toggle that completes
without a capability failure (i.e. returns a response rather than
raising). -/
theorem C9_session_invariant :
    sessionInv initState ∧
    ∀ (caps : Caps) (s : ServerState) (r : Response), sessionInv s →
      (handle_toggle caps s).2 = Except.ok r → sessionInv (handle_toggle caps s).1 := by
  constructor
  · rfl
  · intro caps s r hinv hok
    cases hr : s.recording with
    | false =>
        rw [show handle_toggle caps s = start_recording caps s by simp [handle_toggle, hr]]
          at hok ⊢
        unfold start_recording at hok ⊢
        cases hmk : caps.mkStreamOk with
        | false => simp [hmk] at hok
        | true =>
            cases hst : caps.streamStartOk with
            | false => simp [hmk, hst] at hok
            | true => simp [hmk, hst, sessionInv]
    | true =>
        cases hstream : s.stream with
        | none => rw [hinv, hstream] at hr; simp at hr
        | some h =>
            rw [show handle_toggle caps s = stop_and_transcribe caps s by
              simp [handle_toggle, hr]] at hok ⊢
            unfold stop_and_transcribe at hok ⊢
            rw [hstream] at hok ⊢
            cases hstop : caps.stopOk with
            | false => simp [hstop] at hok
            | true =>
                cases hcl : caps.closeOk with
                | false => simp [hstop, hcl] at hok
                | true =>
                    unfold sessionInv
                    simp [hstop, hcl, transcribe_phase_recording, transcribe_phase_stream]

/-- Witness for C9: the invariant after the first toggle from the initial
state. -/
theorem C9_witness : sessionInv (handle_toggle okCaps initState).1 :=
  C9_session_invariant.2 okCaps initState Response.recording rfl rfl

/-- C10: a writable connection delivering zero bytes or only whitespace
(trimmed text empty) is treated as an unknown command: the state is
unchanged, the response is `{"error": "unknown command: "}` with empty text,
and the accept loop continues with the remaining connections. -/
theorem C10_empty_command (caps : Caps) (s : ServerState) (str : String) (rest : List Conn)
    (hws : pyStrip str = "") :
    (serve_step caps s { data := some str, writable := true }).state = s ∧
    (serve_step caps s { data := some str, writable := true }).sent =
      some (Response.error "unknown command: ") ∧
    serve_run caps s ({ data := some str, writable := true } :: rest) =
      ((serve_run caps s rest).1,
        serve_step caps s { data := some str, writable := true } :: (serve_run caps s rest).2) := by
  have hne : pyStrip str ≠ "toggle" := by simp [hws]
  have hs : serve_step caps s { data := some str, writable := true } =
      { state := s, sent := some (Response.error "unknown command: "), closed := true } := by
    simp [serve_step, hne, hws]
  refine ⟨by rw [hs], by rw [hs], ?_⟩
  simp [serve_run, hs]

/-- Witness for C10: the empty payload. -/
theorem C10_witness :
    pyStrip "" = "" ∧
    (serve_step okCaps initState { data := some "", writable := true }).state = initState ∧
    (serve_step okCaps initState { data := some "", writable := true }).sent =
      some (Response.error "unknown command: ") :=
  ⟨rfl, (C10_empty_command okCaps initState "" [] rfl).1,
    (C10_empty_command okCaps initState "" [] rfl).2.1⟩

end MacLocalWhisper
